import Mathlib

/-!
Shallow embedding of the r3d rendering-pipeline core (frame orchestration,
draw-call classification, light batching, pass sequencing) and proofs about it.

Conventions of the embedding:
* C `float` arithmetic is modelled exactly: over `ℚ` where the source only
  adds, multiplies, divides and compares, and over `ℝ` where it takes square
  roots or trigonometric functions (`Vector3Normalize`, the cut-off cosines).
* Fallible lookups return `Option`; `TraceLog` output is modelled as the list
  of emitted log levels.
* GPU objects are modelled by their integer object ids plus the attributes the
  pipeline itself tracks (pixel dimensions for framebuffers).
* A few helpers of this repository are declared and called in the sources but
  their definitions are not among them (the generic registry container, the
  back-to-front sort, the screen-space projection helpers, the squared
  point-in-sphere test); each such definition below is marked
  `Modelled from the spec:` and follows the specification text.
-/

namespace R3D

/- === raymath / raylib math collaborators === -/

/-- raylib Vector3 with exact rational coordinates. -/
structure Vector3 where
  x : ℚ
  y : ℚ
  z : ℚ
deriving DecidableEq

/-- raymath Vector3DistanceSqr: squared euclidean distance between two points. -/
def Vector3DistanceSqr (v1 v2 : Vector3) : ℚ :=
  (v2.x - v1.x) * (v2.x - v1.x) + (v2.y - v1.y) * (v2.y - v1.y) +
    (v2.z - v1.z) * (v2.z - v1.z)

/-- raylib Vector3 over the reals, for the operations that need square roots
or trigonometry; the renderer stores light directions through these. -/
structure Vector3R where
  x : ℝ
  y : ℝ
  z : ℝ

/-- Squared length of a real vector. -/
def Vector3RLengthSqr (v : Vector3R) : ℝ :=
  v.x * v.x + v.y * v.y + v.z * v.z

/-- raymath Vector3Scale over the reals. -/
def Vector3RScale (v : Vector3R) (s : ℝ) : Vector3R :=
  ⟨v.x * s, v.y * s, v.z * s⟩

/-- raymath Vector3Subtract over the reals. -/
def Vector3RSubtract (a b : Vector3R) : Vector3R :=
  ⟨a.x - b.x, a.y - b.y, a.z - b.z⟩

/-- raymath Vector3Normalize: divides the vector by its length; a zero-length
vector is returned unchanged (the C source substitutes length 1). -/
noncomputable def Vector3Normalize (v : Vector3R) : Vector3R :=
  let length := Real.sqrt (v.x * v.x + v.y * v.y + v.z * v.z)
  if length = 0 then v else ⟨v.x / length, v.y / length, v.z / length⟩

/-- Widening a rational vector to a real one (C promotes floats silently). -/
def Vector3.toR (v : Vector3) : Vector3R :=
  ⟨(v.x : ℝ), (v.y : ℝ), (v.z : ℝ)⟩

/-- raylib Rectangle. -/
structure Rectangle where
  x : ℚ
  y : ℚ
  width : ℚ
  height : ℚ
deriving DecidableEq

/-- raymath Clamp: clamps below first, then above, exactly as the C source. -/
def Clamp (value minv maxv : ℚ) : ℚ :=
  let result := if value < minv then minv else value
  if result > maxv then maxv else result

/-- raylib CheckCollisionRecs: strict overlap test between two rectangles. -/
def CheckCollisionRecs (rec1 rec2 : Rectangle) : Prop :=
  rec1.x < rec2.x + rec2.width ∧ rec2.x < rec1.x + rec1.width ∧
    rec1.y < rec2.y + rec2.height ∧ rec2.y < rec1.y + rec1.height

instance (rec1 rec2 : Rectangle) : Decidable (CheckCollisionRecs rec1 rec2) := by
  unfold CheckCollisionRecs; infer_instance

/-- raylib Color: four 8-bit channels (0‥255). -/
structure RColor where
  r : ℕ
  g : ℕ
  b : ℕ
  a : ℕ
deriving DecidableEq

/-- C truncation of a float to an integer type (round toward zero). -/
def truncToInt (q : ℚ) : ℤ :=
  if q < 0 then ⌈q⌉ else ⌊q⌋

/-- raylib PixelFormat (the PIXELFORMAT_ enumeration). -/
inductive PixelFormat where
  | UNCOMPRESSED_GRAYSCALE
  | UNCOMPRESSED_GRAY_ALPHA
  | UNCOMPRESSED_R5G6B5
  | UNCOMPRESSED_R8G8B8
  | UNCOMPRESSED_R5G5B5A1
  | UNCOMPRESSED_R4G4B4A4
  | UNCOMPRESSED_R8G8B8A8
  | UNCOMPRESSED_R32
  | UNCOMPRESSED_R32G32B32
  | UNCOMPRESSED_R32G32B32A32
  | UNCOMPRESSED_R16
  | UNCOMPRESSED_R16G16B16
  | UNCOMPRESSED_R16G16B16A16
  | COMPRESSED_DXT1_RGB
  | COMPRESSED_DXT1_RGBA
  | COMPRESSED_DXT3_RGBA
  | COMPRESSED_DXT5_RGBA
  | COMPRESSED_ETC1_RGB
  | COMPRESSED_ETC2_RGB
  | COMPRESSED_ETC2_EAC_RGBA
  | COMPRESSED_PVRT_RGB
  | COMPRESSED_PVRT_RGBA
  | COMPRESSED_ASTC_4x4_RGBA
  | COMPRESSED_ASTC_8x8_RGBA
deriving DecidableEq

/-- raylib Texture: GPU object id plus pixel format (the only two fields the
render-path classification inspects). -/
structure RTexture where
  id : ℕ
  format : PixelFormat
deriving DecidableEq

/-- One raylib MaterialMap: a texture and a tint color. -/
structure MaterialMap where
  texture : RTexture
  color : RColor
deriving DecidableEq

/-- raylib Material, restricted to the albedo map (MATERIAL_MAP_ALBEDO), the
only map the render-path classification reads. -/
structure Material where
  albedo : MaterialMap
deriving DecidableEq

/-- raylib Matrix (column-major 4×4), with m12/m13/m14 the translation. -/
structure Matrix4 where
  m0 : ℚ
  m4 : ℚ
  m8 : ℚ
  m12 : ℚ
  m1 : ℚ
  m5 : ℚ
  m9 : ℚ
  m13 : ℚ
  m2 : ℚ
  m6 : ℚ
  m10 : ℚ
  m14 : ℚ
  m3 : ℚ
  m7 : ℚ
  m11 : ℚ
  m15 : ℚ
deriving DecidableEq

/-- raylib TraceLog levels (the subset the embedded code emits or the spec
names). -/
inductive TraceLogLevel where
  | LOG_INFO
  | LOG_WARNING
  | LOG_ERROR
deriving DecidableEq

/- === r3d public enumerations === -/

/-- R3D_RenderMode as used by the core (auto-detection plus the two paths). -/
inductive R3D_RenderMode where
  | AUTO_DETECT
  | DEFERRED
  | FORWARD
deriving DecidableEq

/-- R3D_BlendMode of draw submissions. -/
inductive R3D_BlendMode where
  | OPAQUE
  | ALPHA
  | ADDITIVE
  | MULTIPLY
deriving DecidableEq

/-- R3D_LightType. -/
inductive R3D_LightType where
  | DIR
  | SPOT
  | OMNI
deriving DecidableEq

/-- R3D_ShadowUpdateMode (MANUAL is the zero value). -/
inductive R3D_ShadowUpdateMode where
  | MANUAL
  | INTERVAL
  | CONTINUOUS
deriving DecidableEq

/-- R3D_ShadowCastMode of draw submissions. -/
inductive R3D_ShadowCastMode where
  | DISABLED
  | FRONT_FACES
  | BACK_FACES
  | ALL_FACES
deriving DecidableEq

/-- R3D_BillboardMode of draw submissions. -/
inductive R3D_BillboardMode where
  | DISABLED
  | FRONT
  | Y_AXIS
deriving DecidableEq

/-- R3D_Bloom post-process mode. -/
inductive R3D_Bloom where
  | DISABLED
  | ADDITIVE
  | SOFT_LIGHT
deriving DecidableEq

/-- R3D_Fog post-process mode. -/
inductive R3D_Fog where
  | DISABLED
  | LINEAR
  | EXP2
  | EXP
deriving DecidableEq

/-- R3D_Tonemap post-process mode (LINEAR is the default). -/
inductive R3D_Tonemap where
  | LINEAR
  | REINHARD
  | FILMIC
  | ACES
deriving DecidableEq

/- === Render-path classification (r3d_core.c, r3d_render_auto_detect_mode) === -/

/-- The albedo-format alpha probe of r3d_render_auto_detect_mode: the switch
listing the pixel formats that carry an alpha channel. -/
def r3d_albedo_format_has_alpha : PixelFormat → Bool
  | .UNCOMPRESSED_GRAY_ALPHA => true
  | .UNCOMPRESSED_R5G5B5A1 => true
  | .UNCOMPRESSED_R4G4B4A4 => true
  | .UNCOMPRESSED_R8G8B8A8 => true
  | .UNCOMPRESSED_R32G32B32A32 => true
  | .UNCOMPRESSED_R16G16B16A16 => true
  | .COMPRESSED_DXT1_RGBA => true
  | .COMPRESSED_DXT3_RGBA => true
  | .COMPRESSED_DXT5_RGBA => true
  | .COMPRESSED_ETC2_EAC_RGBA => true
  | .COMPRESSED_PVRT_RGBA => true
  | .COMPRESSED_ASTC_4x4_RGBA => true
  | .COMPRESSED_ASTC_8x8_RGBA => true
  | _ => false

/-- r3d_render_auto_detect_mode: picks deferred or forward from the active
blend mode and the material's albedo color/texture. `blendMode` is the global
state R3D.state.render.blendMode; `defaultTexId` is rlGetTextureIdDefault(). -/
def r3d_render_auto_detect_mode (blendMode : R3D_BlendMode) (defaultTexId : ℕ)
    (material : Material) : R3D_RenderMode :=
  if blendMode = .OPAQUE then .DEFERRED
  else if blendMode ≠ .ALPHA then .FORWARD
  else
    let texId := material.albedo.texture.id
    let defaultTex := texId = 0 ∨ texId = defaultTexId
    let alphaColor := material.albedo.color.a < 255
    let alphaFormat := ¬ defaultTex ∧ r3d_albedo_format_has_alpha material.albedo.texture.format = true
    if (alphaColor ∨ alphaFormat) ∧ blendMode = .ALPHA then .FORWARD
    else .DEFERRED

/- === Draw calls and their collection (r3d_core.c, R3D_DrawMesh) === -/

/-- The forward-only parameters of a draw call, set only when the call goes to
a forward bin (they stay zero-initialized on the deferred path). -/
structure ForwardParams where
  alphaScissorThreshold : ℚ
  blendMode : R3D_BlendMode
deriving DecidableEq

/-- A mesh, opaque to the pipeline except for identity. -/
structure Mesh where
  id : ℕ
deriving DecidableEq

/-- r3d_drawcall_t as filled by R3D_DrawMesh (non-instanced mesh geometry). -/
structure DrawCall where
  transform : Matrix4
  material : Material
  mesh : Mesh
  shadowCastMode : R3D_ShadowCastMode
  forward : Option ForwardParams
deriving DecidableEq

/-- The per-submission global state R3D_DrawMesh reads (R3D.state.render). -/
structure RenderSettings where
  mode : R3D_RenderMode
  blendMode : R3D_BlendMode
  shadowCastMode : R3D_ShadowCastMode
  billboardMode : R3D_BillboardMode
  alphaScissorThreshold : ℚ

/-- The non-instanced draw-call bins of R3D.container. -/
structure DrawContainers where
  aDrawDeferred : List DrawCall
  aDrawForward : List DrawCall

/-- R3D_DrawMesh: classifies the submission and appends it to the deferred or
the forward bin. `billboardApply` stands for the billboard helpers
r3d_billboard_mode_front / r3d_billboard_mode_y (they only rewrite the
transform against the inverse view matrix; their definitions are not among the
sources, so the rewrite is kept abstract); `defaultTexId` is
rlGetTextureIdDefault(). -/
def R3D_DrawMesh (render : RenderSettings) (defaultTexId : ℕ)
    (billboardApply : R3D_BillboardMode → Matrix4 → Matrix4)
    (cont : DrawContainers) (mesh : Mesh) (material : Material)
    (transform : Matrix4) : DrawContainers :=
  let transform := billboardApply render.billboardMode transform
  let mode :=
    if render.mode = .AUTO_DETECT then
      r3d_render_auto_detect_mode render.blendMode defaultTexId material
    else render.mode
  if mode = .FORWARD then
    let call : DrawCall :=
      { transform := transform, material := material, mesh := mesh,
        shadowCastMode := render.shadowCastMode,
        forward := some ⟨render.alphaScissorThreshold, render.blendMode⟩ }
    { cont with aDrawForward := cont.aDrawForward ++ [call] }
  else
    let call : DrawCall :=
      { transform := transform, material := material, mesh := mesh,
        shadowCastMode := render.shadowCastMode, forward := none }
    { cont with aDrawDeferred := cont.aDrawDeferred ++ [call] }

/- === Draw-call sorting (details/r3d_drawcall.c) === -/

/-- The world-space origin of a draw call: the translation column m12/m13/m14
of its transform, as read by r3d_drawcall_compare_front_to_back. -/
def r3d_drawcall_origin (c : DrawCall) : Vector3 :=
  ⟨c.transform.m12, c.transform.m13, c.transform.m14⟩

/-- The sort key of r3d_drawcall_compare_front_to_back: squared distance from
the camera position to the draw call's world-space origin. -/
def r3d_drawcall_dist_sqr (posView : Vector3) (c : DrawCall) : ℚ :=
  Vector3DistanceSqr posView (r3d_drawcall_origin c)

/-- The ordering induced by r3d_drawcall_compare_front_to_back (ascending
squared distance: closest first). -/
def r3d_drawcall_front_to_back_le (posView : Vector3) (a b : DrawCall) : Prop :=
  r3d_drawcall_dist_sqr posView a ≤ r3d_drawcall_dist_sqr posView b

instance (posView : Vector3) :
    DecidableRel (r3d_drawcall_front_to_back_le posView) := fun a b => by
  unfold r3d_drawcall_front_to_back_le; infer_instance

instance (posView : Vector3) :
    IsTotal DrawCall (r3d_drawcall_front_to_back_le posView) :=
  ⟨fun a b => le_total _ _⟩

instance (posView : Vector3) :
    IsTrans DrawCall (r3d_drawcall_front_to_back_le posView) :=
  ⟨fun _ _ _ hab hbc => le_trans hab hbc⟩

/-- r3d_drawcall_sort_front_to_back: the qsort call on the comparator above,
modelled as a stable comparison sort (glibc qsort is a merge sort). -/
def r3d_drawcall_sort_front_to_back (posView : Vector3)
    (calls : List DrawCall) : List DrawCall :=
  List.insertionSort (r3d_drawcall_front_to_back_le posView) calls

/-- The reverse ordering (farthest first), for the back-to-front sort. -/
def r3d_drawcall_back_to_front_le (posView : Vector3) (a b : DrawCall) : Prop :=
  r3d_drawcall_dist_sqr posView b ≤ r3d_drawcall_dist_sqr posView a

instance (posView : Vector3) :
    DecidableRel (r3d_drawcall_back_to_front_le posView) := fun a b => by
  unfold r3d_drawcall_back_to_front_le; infer_instance

instance (posView : Vector3) :
    IsTotal DrawCall (r3d_drawcall_back_to_front_le posView) :=
  ⟨fun a b => le_total _ _⟩

instance (posView : Vector3) :
    IsTrans DrawCall (r3d_drawcall_back_to_front_le posView) :=
  ⟨fun _ _ _ hab hbc => le_trans hbc hab⟩

/-- Modelled from the spec: r3d_drawcall_sort_back_to_front is declared in
details/r3d_drawcall.h and called at frame-end, but its definition is not
among the sources; the spec states that forward-path draw calls are sorted
back-to-front with the same squared-distance key. -/
def r3d_drawcall_sort_back_to_front (posView : Vector3)
    (calls : List DrawCall) : List DrawCall :=
  List.insertionSort (r3d_drawcall_back_to_front_le posView) calls

/-- r3d_prepare_sort_drawcalls: sorts the deferred bin front-to-back and the
forward bin back-to-front (the instanced bins are left untouched). -/
def r3d_prepare_sort_drawcalls (posView : Vector3) (cont : DrawContainers) :
    DrawContainers :=
  { aDrawDeferred := r3d_drawcall_sort_front_to_back posView cont.aDrawDeferred,
    aDrawForward := r3d_drawcall_sort_back_to_front posView cont.aDrawForward }

/- === Lights (details/r3d_light.c, r3d_lighting.c) === -/

/-- r3d_shadow_map_t: the GPU shadow-map resource of a light (framebuffer id,
depth attachment, optional color cubemap, resolution, texel size). -/
structure r3d_shadow_map_t where
  id : ℕ
  depth : ℕ
  color : ℕ
  resolution : ℤ
  texelSize : ℚ

/-- The zero-initialized shadow map (id 0 means no GPU resource). -/
def r3d_shadow_map_zero : r3d_shadow_map_t :=
  ⟨0, 0, 0, 0, 0⟩

/-- The shadow update-throttling configuration of a light (mode, period,
accumulated timer, and the should-update-this-frame flag; the flag's field
name keeps the source's spelling). -/
structure ShadowUpdateConf where
  mode : R3D_ShadowUpdateMode
  frequencySec : ℚ
  timerSec : ℚ
  shoudlUpdate : Bool

/-- The shadow sub-record owned by a light. -/
structure r3d_shadow_t where
  enabled : Bool
  map : r3d_shadow_map_t
  bias : ℚ
  updateConf : ShadowUpdateConf
  matVP : Matrix4

/-- The 16-zero matrix, for zero-initialized C structs. -/
def Matrix4.zero : Matrix4 :=
  ⟨0, 0, 0, 0, 0, 0, 0, 0, 0, 0, 0, 0, 0, 0, 0, 0⟩

/-- The zero-initialized shadow sub-record. -/
def r3d_shadow_zero : r3d_shadow_t :=
  { enabled := false, map := r3d_shadow_map_zero, bias := 0,
    updateConf := ⟨.MANUAL, 0, 0, false⟩, matVP := Matrix4.zero }

/-- r3d_light_t: one light of the registry. The direction and the stored
cut-off cosines live over ℝ because the source normalizes directions and
takes cosines; everything else is exact rational data. -/
structure r3d_light_t where
  shadow : r3d_shadow_t
  color : Vector3
  position : Vector3
  direction : Vector3R
  specular : ℚ
  energy : ℚ
  range : ℚ
  attenuation : ℚ
  innerCutOff : ℝ
  outerCutOff : ℝ
  size : ℚ
  near : ℚ
  far : ℚ
  type : R3D_LightType
  enabled : Bool

/-- r3d_light_init (details/r3d_light.c): resets exactly the fields the source
assigns; fields the source leaves alone (specular, size, near, far) keep
whatever the slot held. -/
def r3d_light_init (light : r3d_light_t) : r3d_light_t :=
  { light with
    shadow := r3d_shadow_zero
    color := ⟨1, 1, 1⟩
    position := ⟨0, 0, 0⟩
    direction := ⟨0, 0, -1⟩
    energy := 1
    range := 100
    attenuation := 1
    innerCutOff := -1
    outerCutOff := -1
    type := .DIR
    enabled := false }

/- === Light registry (details/containers/r3d_registry, not among the
sources) === -/

/-- Modelled from the spec: the registry container (r3d_registry_create /
add / get / remove / is_valid) is declared and used by the sources but its
definition is not among them. The spec describes a slot table keyed by stable
integer handles with tombstoned (not compacted) slots, where access through a
destroyed or never-created handle must fail safely. Handles are 1-based slot
indices; a `none` slot is a tombstone. -/
structure Registry where
  slots : List (Option r3d_light_t)

/-- The empty registry. -/
def Registry.empty : Registry :=
  ⟨[]⟩

/-- r3d_registry_get: the light stored under a handle, or none for handle 0,
an out-of-range handle or a tombstoned slot. -/
def r3d_registry_get (reg : Registry) (id : ℕ) : Option r3d_light_t :=
  if id = 0 then none
  else
    match reg.slots.get? (id - 1) with
    | some (some light) => some light
    | _ => none

/-- Overwrites the slot of an existing handle (the C code mutates the light
in place through the pointer r3d_registry_get returned). -/
def r3d_registry_set (reg : Registry) (id : ℕ) (light : r3d_light_t) :
    Registry :=
  ⟨reg.slots.set (id - 1) (some light)⟩

/-- The first tombstoned slot index, if any. -/
def firstFreeSlot : List (Option r3d_light_t) → Option ℕ
  | [] => none
  | none :: _ => some 0
  | some _ :: rest => (firstFreeSlot rest).map (· + 1)

/-- r3d_registry_add: stores a light in the first tombstoned slot, or in a
fresh slot at the end, and returns its handle. -/
def r3d_registry_add (reg : Registry) (light : r3d_light_t) : Registry × ℕ :=
  match firstFreeSlot reg.slots with
  | some idx => (⟨reg.slots.set idx (some light)⟩, idx + 1)
  | none => (⟨reg.slots ++ [some light]⟩, reg.slots.length + 1)

/-- r3d_registry_remove: tombstones the slot of a handle. -/
def r3d_registry_remove (reg : Registry) (id : ℕ) : Registry :=
  ⟨reg.slots.set (id - 1) none⟩

/- === Light accessors (r3d_lighting.c) === -/

/-- The r3d_get_and_check_light macro shared by every light accessor: fetch
the light; on a null result, TraceLog(LOG_ERROR, "Light [ID %i] is not
valid") and return the accessor's default; otherwise run the accessor body,
which may rewrite the light in place. Results are (value, registry after the
call, emitted log levels). -/
def r3d_get_and_check_light {β : Type} (reg : Registry) (id : ℕ) (deflt : β)
    (body : r3d_light_t → β × Option r3d_light_t) :
    β × Registry × List TraceLogLevel :=
  match r3d_registry_get reg id with
  | none => (deflt, reg, [.LOG_ERROR])
  | some light =>
    match body light with
    | (v, none) => (v, reg, [])
    | (v, some light2) => (v, r3d_registry_set reg id light2, [])

/-- R3D_IsLightExist. -/
def R3D_IsLightExist (reg : Registry) (id : ℕ) :
    Bool × Registry × List TraceLogLevel :=
  r3d_get_and_check_light reg id false fun _ => (true, none)

/-- R3D_GetLightType (the C default return 0 is R3D_LIGHT_DIR). -/
def R3D_GetLightType (reg : Registry) (id : ℕ) :
    R3D_LightType × Registry × List TraceLogLevel :=
  r3d_get_and_check_light reg id .DIR fun light => (light.type, none)

/-- R3D_IsLightActive. -/
def R3D_IsLightActive (reg : Registry) (id : ℕ) :
    Bool × Registry × List TraceLogLevel :=
  r3d_get_and_check_light reg id false fun light => (light.enabled, none)

/-- R3D_ToggleLight: flips the enabled flag; re-arming the shadow update flag
when the light turns on with shadows enabled. -/
def R3D_ToggleLight (reg : Registry) (id : ℕ) :
    Unit × Registry × List TraceLogLevel :=
  r3d_get_and_check_light reg id () fun light =>
    let light := { light with enabled := !light.enabled }
    let light :=
      if light.enabled && light.shadow.enabled then
        { light with shadow.updateConf.shoudlUpdate := true }
      else light
    ((), some light)

/-- R3D_SetLightActive. -/
def R3D_SetLightActive (reg : Registry) (id : ℕ) (active : Bool) :
    Unit × Registry × List TraceLogLevel :=
  r3d_get_and_check_light reg id () fun light =>
    if light.enabled = active then ((), none)
    else
      let light :=
        if active && light.shadow.enabled then
          { light with shadow.updateConf.shoudlUpdate := true }
        else light
      ((), some { light with enabled := active })

/-- R3D_GetLightColor: the stored linear color scaled back to 8-bit channels
(BLANK, all-zero, on an invalid handle). -/
def R3D_GetLightColor (reg : Registry) (id : ℕ) :
    RColor × Registry × List TraceLogLevel :=
  r3d_get_and_check_light reg id ⟨0, 0, 0, 0⟩ fun light =>
    (⟨(truncToInt (Clamp (light.color.x * 255) 0 255)).toNat,
      (truncToInt (Clamp (light.color.y * 255) 0 255)).toNat,
      (truncToInt (Clamp (light.color.z * 255) 0 255)).toNat, 255⟩, none)

/-- R3D_GetLightColorV. -/
def R3D_GetLightColorV (reg : Registry) (id : ℕ) :
    Vector3 × Registry × List TraceLogLevel :=
  r3d_get_and_check_light reg id ⟨0, 0, 0⟩ fun light => (light.color, none)

/-- R3D_SetLightColor: 8-bit channels scaled to linear. -/
def R3D_SetLightColor (reg : Registry) (id : ℕ) (color : RColor) :
    Unit × Registry × List TraceLogLevel :=
  r3d_get_and_check_light reg id () fun light =>
    ((), some { light with
      color := ⟨(color.r : ℚ) / 255, (color.g : ℚ) / 255, (color.b : ℚ) / 255⟩ })

/-- R3D_SetLightColorV. -/
def R3D_SetLightColorV (reg : Registry) (id : ℕ) (color : Vector3) :
    Unit × Registry × List TraceLogLevel :=
  r3d_get_and_check_light reg id () fun light =>
    ((), some { light with color := color })

/-- R3D_GetLightPosition. -/
def R3D_GetLightPosition (reg : Registry) (id : ℕ) :
    Vector3 × Registry × List TraceLogLevel :=
  r3d_get_and_check_light reg id ⟨0, 0, 0⟩ fun light => (light.position, none)

/-- R3D_SetLightPosition. -/
def R3D_SetLightPosition (reg : Registry) (id : ℕ) (position : Vector3) :
    Unit × Registry × List TraceLogLevel :=
  r3d_get_and_check_light reg id () fun light =>
    ((), some { light with position := position })

/-- R3D_GetLightDirection. -/
def R3D_GetLightDirection (reg : Registry) (id : ℕ) :
    Vector3R × Registry × List TraceLogLevel :=
  r3d_get_and_check_light reg id ⟨0, 0, 0⟩ fun light => (light.direction, none)

/-- R3D_SetLightDirection: stores the normalization of the argument, never the
raw vector. -/
noncomputable def R3D_SetLightDirection (reg : Registry) (id : ℕ)
    (direction : Vector3R) : Unit × Registry × List TraceLogLevel :=
  r3d_get_and_check_light reg id () fun light =>
    ((), some { light with direction := Vector3Normalize direction })

/-- R3D_SetLightTarget: aims the light at a point. -/
noncomputable def R3D_SetLightTarget (reg : Registry) (id : ℕ)
    (target : Vector3R) : Unit × Registry × List TraceLogLevel :=
  r3d_get_and_check_light reg id () fun light =>
    ((), some { light with
      direction := Vector3Normalize (Vector3RSubtract target light.position.toR) })

/-- R3D_GetLightEnergy. -/
def R3D_GetLightEnergy (reg : Registry) (id : ℕ) :
    ℚ × Registry × List TraceLogLevel :=
  r3d_get_and_check_light reg id 0 fun light => (light.energy, none)

/-- R3D_SetLightEnergy. -/
def R3D_SetLightEnergy (reg : Registry) (id : ℕ) (energy : ℚ) :
    Unit × Registry × List TraceLogLevel :=
  r3d_get_and_check_light reg id () fun light =>
    ((), some { light with energy := energy })

/-- R3D_GetLightRange. -/
def R3D_GetLightRange (reg : Registry) (id : ℕ) :
    ℚ × Registry × List TraceLogLevel :=
  r3d_get_and_check_light reg id 0 fun light => (light.range, none)

/-- R3D_SetLightRange. -/
def R3D_SetLightRange (reg : Registry) (id : ℕ) (range : ℚ) :
    Unit × Registry × List TraceLogLevel :=
  r3d_get_and_check_light reg id () fun light =>
    ((), some { light with range := range })

/-- R3D_GetLightAttenuation. -/
def R3D_GetLightAttenuation (reg : Registry) (id : ℕ) :
    ℚ × Registry × List TraceLogLevel :=
  r3d_get_and_check_light reg id 0 fun light => (light.attenuation, none)

/-- R3D_SetLightAttenuation. -/
def R3D_SetLightAttenuation (reg : Registry) (id : ℕ) (attenuation : ℚ) :
    Unit × Registry × List TraceLogLevel :=
  r3d_get_and_check_light reg id () fun light =>
    ((), some { light with attenuation := attenuation })

/-- R3D_GetLightInnerCutOff: arccos of the stored cosine, in degrees. -/
noncomputable def R3D_GetLightInnerCutOff (reg : Registry) (id : ℕ) :
    ℝ × Registry × List TraceLogLevel :=
  r3d_get_and_check_light reg id 0 fun light =>
    (Real.arccos light.innerCutOff * (180 / Real.pi), none)

/-- R3D_SetLightInnerCutOff: stores the cosine of the angle in degrees. -/
noncomputable def R3D_SetLightInnerCutOff (reg : Registry) (id : ℕ)
    (degrees : ℝ) : Unit × Registry × List TraceLogLevel :=
  r3d_get_and_check_light reg id () fun light =>
    ((), some { light with innerCutOff := Real.cos (degrees * (Real.pi / 180)) })

/-- R3D_GetLightOuterCutOff. -/
noncomputable def R3D_GetLightOuterCutOff (reg : Registry) (id : ℕ) :
    ℝ × Registry × List TraceLogLevel :=
  r3d_get_and_check_light reg id 0 fun light =>
    (Real.arccos light.outerCutOff * (180 / Real.pi), none)

/-- R3D_SetLightOuterCutOff. -/
noncomputable def R3D_SetLightOuterCutOff (reg : Registry) (id : ℕ)
    (degrees : ℝ) : Unit × Registry × List TraceLogLevel :=
  r3d_get_and_check_light reg id () fun light =>
    ((), some { light with outerCutOff := Real.cos (degrees * (Real.pi / 180)) })

/-- R3D_EnableShadow: lazily creates (or re-creates at a new resolution) the
shadow-map resource and sets the enabled flag. `createMap` stands for
r3d_light_create_shadow_map's GPU allocation, which returns the fresh map
record for the light's type and resolution. -/
def R3D_EnableShadow (createMap : R3D_LightType → ℤ → r3d_shadow_map_t)
    (reg : Registry) (id : ℕ) (resolution : ℤ) :
    Unit × Registry × List TraceLogLevel :=
  r3d_get_and_check_light reg id () fun light =>
    let light :=
      if light.shadow.map.id ≠ 0 then
        if resolution > 0 ∧ light.shadow.map.resolution ≠ resolution then
          { light with shadow.map := createMap light.type resolution }
        else light
      else
        let resolution := if resolution = 0 then 1024 else resolution
        { light with shadow.map := createMap light.type resolution }
    ((), some { light with shadow.enabled := true })

/-- R3D_DisableShadow: clears the enabled flag, optionally destroying the map
(the C code then zeroes the map record with memset). -/
def R3D_DisableShadow (reg : Registry) (id : ℕ) (destroyMap : Bool) :
    Unit × Registry × List TraceLogLevel :=
  r3d_get_and_check_light reg id () fun light =>
    let light :=
      if destroyMap then { light with shadow.map := r3d_shadow_map_zero }
      else light
    ((), some { light with shadow.enabled := false })

/-- R3D_IsShadowEnabled. -/
def R3D_IsShadowEnabled (reg : Registry) (id : ℕ) :
    Bool × Registry × List TraceLogLevel :=
  r3d_get_and_check_light reg id false fun light =>
    (light.shadow.enabled, none)

/-- R3D_HasShadowMap. -/
def R3D_HasShadowMap (reg : Registry) (id : ℕ) :
    Bool × Registry × List TraceLogLevel :=
  r3d_get_and_check_light reg id false fun light =>
    (light.shadow.map.id ≠ 0, none)

/-- R3D_GetShadowUpdateMode (the C default return 0 is MANUAL). -/
def R3D_GetShadowUpdateMode (reg : Registry) (id : ℕ) :
    R3D_ShadowUpdateMode × Registry × List TraceLogLevel :=
  r3d_get_and_check_light reg id .MANUAL fun light =>
    (light.shadow.updateConf.mode, none)

/-- R3D_SetShadowUpdateMode. -/
def R3D_SetShadowUpdateMode (reg : Registry) (id : ℕ)
    (mode : R3D_ShadowUpdateMode) : Unit × Registry × List TraceLogLevel :=
  r3d_get_and_check_light reg id () fun light =>
    ((), some { light with shadow.updateConf.mode := mode })

/-- R3D_GetShadowUpdateFrequency: the stored period in milliseconds. -/
def R3D_GetShadowUpdateFrequency (reg : Registry) (id : ℕ) :
    ℤ × Registry × List TraceLogLevel :=
  r3d_get_and_check_light reg id 0 fun light =>
    (truncToInt (light.shadow.updateConf.frequencySec * 1000), none)

/-- R3D_SetShadowUpdateFrequency. -/
def R3D_SetShadowUpdateFrequency (reg : Registry) (id : ℕ) (msec : ℤ) :
    Unit × Registry × List TraceLogLevel :=
  r3d_get_and_check_light reg id () fun light =>
    ((), some { light with shadow.updateConf.frequencySec := (msec : ℚ) / 1000 })

/-- R3D_UpdateShadowMap: arms the manual should-update flag. -/
def R3D_UpdateShadowMap (reg : Registry) (id : ℕ) :
    Unit × Registry × List TraceLogLevel :=
  r3d_get_and_check_light reg id () fun light =>
    ((), some { light with shadow.updateConf.shoudlUpdate := true })

/-- R3D_GetShadowBias. -/
def R3D_GetShadowBias (reg : Registry) (id : ℕ) :
    ℚ × Registry × List TraceLogLevel :=
  r3d_get_and_check_light reg id 0 fun light => (light.shadow.bias, none)

/-- R3D_SetShadowBias. -/
def R3D_SetShadowBias (reg : Registry) (id : ℕ) (value : ℚ) :
    Unit × Registry × List TraceLogLevel :=
  r3d_get_and_check_light reg id () fun light =>
    ((), some { light with shadow.bias := value })

/-- R3D_DestroyLight: releases the shadow resource (a GPU-side effect) and
tombstones the slot; an invalid handle logs and no-ops like every accessor. -/
def R3D_DestroyLight (reg : Registry) (id : ℕ) :
    Unit × Registry × List TraceLogLevel :=
  match r3d_registry_get reg id with
  | none => ((), reg, [.LOG_ERROR])
  | some _ => ((), r3d_registry_remove reg id, [])

/-- The in-place mutations R3D_CreateLight performs on the freshly allocated
slot: r3d_light_init, then the light type, then the shadow defaults
(interval update at 0.016 s, armed, bias 0.0002 for directional/spot and
0.05 for omni). -/
def r3d_create_light_record (slotMem : r3d_light_t) (type : R3D_LightType) :
    r3d_light_t :=
  let light := r3d_light_init slotMem
  let light := { light with type := type }
  let light := { light with
    shadow.updateConf := ⟨.INTERVAL, 16 / 1000, 0, true⟩ }
  { light with
    shadow.bias :=
      match type with
      | .DIR => 2 / 10000
      | .SPOT => 2 / 10000
      | .OMNI => 5 / 100 }

/-- R3D_CreateLight: allocates a slot, initializes the light in place and
applies the type-dependent shadow defaults. `uninit` stands for whatever the
freshly allocated slot memory held. -/
def R3D_CreateLight (uninit : r3d_light_t) (reg : Registry)
    (type : R3D_LightType) : Registry × ℕ :=
  let reg1 := (r3d_registry_add reg uninit).1
  let id := (r3d_registry_add reg uninit).2
  match r3d_registry_get reg1 id with
  | none => (reg1, id)
  | some light => (r3d_registry_set reg1 id (r3d_create_light_record light type), id)

/- === Per-frame light batching (r3d_core.c,
r3d_prepare_process_lights_and_batch) === -/

/-- r3d_light_batched_t: one entry of the per-frame light batch — the light
(the C code stores a pointer; the handle keeps its identity here) and its
screen-space destination rectangle. -/
structure r3d_light_batched_t where
  id : ℕ
  data : r3d_light_t
  dstRect : Rectangle

/-- The screen-space rectangle of a light, as computed in the batcher's
switch: full viewport for a directional light; for spot and omni lights the
projected cone / sphere bounding boxes. The two projection helpers
(r3d_project_cone_bounding_box, r3d_project_sphere_bounding_box) are called
by the sources but not defined among them, so they are abstract parameters
(already closed over the camera, view-projection matrix and screen size). -/
def r3d_light_screen_rect (projCone projSphere : r3d_light_t → Rectangle)
    (screenW screenH : ℤ) (light : r3d_light_t) : Rectangle :=
  match light.type with
  | .DIR => ⟨0, 0, (screenW : ℚ), (screenH : ℚ)⟩
  | .SPOT => projCone light
  | .OMNI => projSphere light

/-- The clamp of an included light rectangle to the screen bounds, exactly as
the batcher performs it (shift negative corners to 0 shrinking the extent,
then Clamp the extent to what remains of the screen). -/
def r3d_clamp_light_rect (screenW screenH : ℤ) (rect : Rectangle) :
    Rectangle :=
  let rect :=
    if rect.x < 0 then { rect with width := rect.width + rect.x, x := 0 }
    else rect
  let rect :=
    if rect.y < 0 then { rect with height := rect.height + rect.y, y := 0 }
    else rect
  { rect with
    width := Clamp rect.width 0 ((screenW : ℚ) - rect.x),
    height := Clamp rect.height 0 ((screenH : ℚ) - rect.y) }

/-- r3d_prepare_process_lights_and_batch: walks every registry slot in handle
order; skips tombstones and disabled lights; computes the screen rectangle;
keeps the light only when that rectangle overlaps the viewport, clamping it
to the viewport bounds. (The shadow-update throttling step the walk also
performs only rewrites shadow timers and never affects inclusion; it is not
modelled here.) -/
def r3d_prepare_process_lights_and_batch
    (projCone projSphere : r3d_light_t → Rectangle) (screenW screenH : ℤ)
    (reg : Registry) : List r3d_light_batched_t :=
  (List.range reg.slots.length).filterMap fun idx =>
    let id := idx + 1
    match r3d_registry_get reg id with
    | none => none
    | some light =>
      if light.enabled = false then none
      else
        let dstRect := r3d_light_screen_rect projCone projSphere screenW screenH light
        if CheckCollisionRecs dstRect ⟨0, 0, (screenW : ℚ), (screenH : ℚ)⟩ then
          some ⟨id, light, r3d_clamp_light_rect screenW screenH dstRect⟩
        else none

/- === Forward-pass light filtering (r3d_core.c,
r3d_pass_scene_forward_filter_and_send_lights) === -/

/-- R3D_SHADER_NUM_LIGHTS: the fixed light capacity of the shaders
(embedded/r3d_shaders.h; the forward raster loop bounds itself by the same
count, its uLights array has this size). -/
def R3D_SHADER_NUM_LIGHTS : ℕ := 8

/-- Modelled from the spec: r3d_collision_check_point_in_sphere_sqr is called
by the forward pass but not defined among the sources; the spec calls it an
approximate point-in-range-sphere test, and the repository's non-squared
sibling r3d_collision_check_point_sphere compares the distance strictly, so
the squared variant compares squared distance strictly against the squared
radius. -/
def r3d_collision_check_point_in_sphere_sqr (point center : Vector3)
    (radius : ℚ) : Prop :=
  Vector3DistanceSqr point center < radius * radius

instance (point center : Vector3) (radius : ℚ) :
    Decidable (r3d_collision_check_point_in_sphere_sqr point center radius) := by
  unfold r3d_collision_check_point_in_sphere_sqr; infer_instance

/-- One uLights[i] uniform slot of the forward shader: the enabled flag and
the light whose parameters were last uploaded into the slot (the individual
uniforms are all projections of that light). -/
structure ForwardLightSlot where
  enabled : Bool
  light : Option r3d_light_t

/-- r3d_pass_scene_forward_filter_and_send_lights, as it acts on the uLights
uniform array for one non-instanced forward draw call: slot i receives the
i-th batched light unless that light is a spot/omni light whose range sphere
misses the draw call's world-space origin — a rejected light's slot is left
untouched (the loop's continue skips the uploads); slots beyond the batch
(or beyond the capacity) get their enabled flag cleared by the trailing
loop. -/
def r3d_pass_scene_forward_filter_and_send_lights
    (prev : Fin R3D_SHADER_NUM_LIGHTS → ForwardLightSlot)
    (batch : List r3d_light_batched_t) (callOrigin : Vector3) :
    Fin R3D_SHADER_NUM_LIGHTS → ForwardLightSlot :=
  fun i =>
    match batch.get? i.val with
    | none => { prev i with enabled := false }
    | some b =>
      if b.data.type ≠ .DIR ∧
          ¬ r3d_collision_check_point_in_sphere_sqr callOrigin b.data.position
              b.data.range then
        prev i
      else
        { enabled := true, light := some b.data }

/- === Resolution-dependent resources (r3d_core.c, R3D_UpdateResolution,
r3d_framebuffers_load / unload) === -/

/-- One framebuffer together with its attached textures, tracked by its GPU
object id and pixel dimensions. -/
structure FramebufferRes where
  id : ℕ
  width : ℤ
  height : ℤ
deriving DecidableEq

/-- The set of resolution-dependent framebuffers of the renderer
(R3D.framebuffer); `none` models a zeroed, never-loaded record. -/
structure FramebufferSet where
  gBuffer : Option FramebufferRes
  litEnv : Option FramebufferRes
  litObj : Option FramebufferRes
  scene : Option FramebufferRes
  post : Option FramebufferRes
  pingPongSSAO : Option FramebufferRes
  pingPongBloom : Option FramebufferRes
deriving DecidableEq

/-- Every loaded framebuffer of the set. -/
def FramebufferSet.loaded (fs : FramebufferSet) : List FramebufferRes :=
  [fs.gBuffer, fs.litEnv, fs.litObj, fs.scene, fs.post, fs.pingPongSSAO,
    fs.pingPongBloom].reduceOption

/-- The loaded full-resolution framebuffers of the set (all but the two
half-resolution ping-pong pairs). -/
def FramebufferSet.loadedFullRes (fs : FramebufferSet) : List FramebufferRes :=
  [fs.gBuffer, fs.litEnv, fs.litObj, fs.scene, fs.post].reduceOption

/-- The loaded half-resolution framebuffers (SSAO and bloom ping-pongs). -/
def FramebufferSet.loadedHalfRes (fs : FramebufferSet) : List FramebufferRes :=
  [fs.pingPongSSAO, fs.pingPongBloom].reduceOption

/-- The state R3D_UpdateResolution touches: the framebuffer set, the logical
resolution with its texel sizes, the environment flags that gate the optional
ping-pong buffers, and a model of GL object-id allocation (fresh ids are
drawn from a strictly growing counter). -/
structure ResolutionState where
  framebuffer : FramebufferSet
  width : ℤ
  height : ℤ
  texelX : ℚ
  texelY : ℚ
  ssaoEnabled : Bool
  bloomMode : R3D_Bloom
  nextFbId : ℕ
deriving DecidableEq

/-- r3d_framebuffers_unload: destroys every loaded framebuffer (the ping-pong
pairs only when they were loaded, which the `Option` already captures). -/
def r3d_framebuffers_unload (s : ResolutionState) : ResolutionState :=
  { s with framebuffer := ⟨none, none, none, none, none, none, none⟩ }

/-- r3d_framebuffers_load: creates the five always-present framebuffers at
the given resolution and the SSAO/bloom ping-pong pairs — at half resolution
(integer halving, as in r3d_state.c) — when their effects are enabled. -/
def r3d_framebuffers_load (w h : ℤ) (s : ResolutionState) : ResolutionState :=
  { s with
    framebuffer :=
      { gBuffer := some ⟨s.nextFbId, w, h⟩
        litEnv := some ⟨s.nextFbId + 1, w, h⟩
        litObj := some ⟨s.nextFbId + 2, w, h⟩
        scene := some ⟨s.nextFbId + 3, w, h⟩
        post := some ⟨s.nextFbId + 4, w, h⟩
        pingPongSSAO :=
          if s.ssaoEnabled then some ⟨s.nextFbId + 5, w / 2, h / 2⟩ else none
        pingPongBloom :=
          if s.bloomMode ≠ .DISABLED then some ⟨s.nextFbId + 6, w / 2, h / 2⟩
          else none }
    nextFbId := s.nextFbId + 7 }

/-- R3D_UpdateResolution: rejects non-positive dimensions with a logged
error; returns unchanged when the resolution already matches; otherwise
unloads and reloads every framebuffer and stores the new resolution and texel
sizes. -/
def R3D_UpdateResolution (w h : ℤ) (s : ResolutionState) :
    ResolutionState × List TraceLogLevel :=
  if w ≤ 0 ∨ h ≤ 0 then (s, [.LOG_ERROR])
  else if w = s.width ∧ h = s.height then (s, [])
  else
    let s := r3d_framebuffers_unload s
    let s := r3d_framebuffers_load w h s
    ({ s with
        width := w, height := h,
        texelX := 1 / (w : ℚ), texelY := 1 / (h : ℚ) }, [])

/- === The frame-end pass sequence (r3d_core.c, R3D_End) === -/

/-- The steps R3D_End runs, in the order its body calls them. -/
inductive R3DPass where
  | sortDrawcalls
  | processLightsAndBatch
  | shadowMaps
  | gbuffer
  | ssao
  | litEnv
  | litObj
  | sceneDeferred
  | sceneBackground
  | forwardDepthPrepass
  | sceneForward
  | postInit
  | postBloom
  | postFog
  | postTonemap
  | postAdjustment
  | postFxaa
  | finalBlit
  | resetRaylibState
deriving DecidableEq

/-- The state R3D_End's control flow reads: the draw-call bins (instanced
ones only through their counts), the camera position for sorting, the
environment's post-processing configuration and the global flags. -/
structure R3D_EndInput where
  posView : Vector3
  aDrawDeferred : List DrawCall
  aDrawForward : List DrawCall
  aDrawDeferredInstCount : ℕ
  aDrawForwardInstCount : ℕ
  ssaoEnabled : Bool
  flagDepthPrepass : Bool
  flagFxaa : Bool
  bloomMode : R3D_Bloom
  fogMode : R3D_Fog
  tonemapMode : R3D_Tonemap
  tonemapExposure : ℚ
  tonemapWhite : ℚ

/-- The sequence of steps one R3D_End call executes, transcribed from its
body: sorting and light batching first, then shadow, G-buffer, optional SSAO,
the deferred lighting block when the deferred bins are non-empty, background,
the forward block when the forward bins are non-empty (with its optional
depth pre-pass), then the post-processing chain — bloom unless disabled, fog
unless disabled, tonemap only when the mode is not LINEAR or the exposure is
not 1, color adjustment always, FXAA on its flag — and the final blit. -/
def R3D_End_trace (s : R3D_EndInput) : List R3DPass :=
  [.sortDrawcalls, .processLightsAndBatch, .shadowMaps, .gbuffer]
    ++ (if s.ssaoEnabled then [.ssao] else [])
    ++ (if 0 < s.aDrawDeferred.length ∨ 0 < s.aDrawDeferredInstCount then
          [.litEnv, .litObj, .sceneDeferred]
        else [])
    ++ [.sceneBackground]
    ++ (if 0 < s.aDrawForward.length ∨ 0 < s.aDrawForwardInstCount then
          (if s.flagDepthPrepass then [.forwardDepthPrepass] else [])
            ++ [.sceneForward]
        else [])
    ++ [.postInit]
    ++ (if s.bloomMode ≠ .DISABLED then [.postBloom] else [])
    ++ (if s.fogMode ≠ .DISABLED then [.postFog] else [])
    ++ (if s.tonemapMode ≠ .LINEAR ∨ s.tonemapExposure ≠ 1 then [.postTonemap]
        else [])
    ++ [.postAdjustment]
    ++ (if s.flagFxaa then [.postFxaa] else [])
    ++ [.finalBlit, .resetRaylibState]

/-- The five post-processing stages of the chain. -/
def R3DPass.isPostStage : R3DPass → Bool
  | .postBloom => true
  | .postFog => true
  | .postTonemap => true
  | .postAdjustment => true
  | .postFxaa => true
  | _ => false

/- === Concrete sample data (used by counterexamples and witnesses) === -/

/-- A material whose albedo map is the raylib default texture (the 1×1 white
texture has format R8G8B8A8) at full opacity, as raylib's default material
carries it. -/
def materialDefaultTexture : Material :=
  { albedo := { texture := { id := 1, format := .UNCOMPRESSED_R8G8B8A8 },
                color := ⟨255, 255, 255, 255⟩ } }

/-- A plain untextured material. -/
def materialPlain : Material :=
  { albedo := { texture := { id := 0, format := .UNCOMPRESSED_R8G8B8 },
                color := ⟨255, 255, 255, 255⟩ } }

/-- Submission settings: auto-detection with alpha blending active. -/
def alphaRenderSettings : RenderSettings :=
  { mode := .AUTO_DETECT, blendMode := .ALPHA, shadowCastMode := .FRONT_FACES,
    billboardMode := .DISABLED, alphaScissorThreshold := 0 }

/-- A draw call placed at x = q on the world x-axis. -/
def drawCallAtX (q : ℚ) : DrawCall :=
  { transform := { Matrix4.zero with m12 := q }, material := materialPlain,
    mesh := ⟨0⟩, shadowCastMode := .FRONT_FACES, forward := none }

/-- A fully determined light record, standing in for freshly allocated slot
memory in witnesses. -/
def sampleLight : r3d_light_t :=
  { shadow := r3d_shadow_zero, color := ⟨1, 1, 1⟩, position := ⟨0, 0, 0⟩,
    direction := ⟨0, 0, -1⟩, specular := 0, energy := 1, range := 100,
    attenuation := 1, innerCutOff := -1, outerCutOff := -1, size := 0,
    near := 0, far := 0, type := .DIR, enabled := false }

/-- A frame-end configuration with every optional stage disabled and a
non-default tonemap white point. -/
def endInputWhite : R3D_EndInput :=
  { posView := ⟨0, 0, 0⟩, aDrawDeferred := [], aDrawForward := [],
    aDrawDeferredInstCount := 0, aDrawForwardInstCount := 0,
    ssaoEnabled := false, flagDepthPrepass := false, flagFxaa := false,
    bloomMode := .DISABLED, fogMode := .DISABLED, tonemapMode := .LINEAR,
    tonemapExposure := 1, tonemapWhite := 2 }

/-- A renderer state fully loaded at 800×600. -/
def resState800 : ResolutionState :=
  { framebuffer :=
      { gBuffer := some ⟨1, 800, 600⟩, litEnv := some ⟨2, 800, 600⟩,
        litObj := some ⟨3, 800, 600⟩, scene := some ⟨4, 800, 600⟩,
        post := some ⟨5, 800, 600⟩, pingPongSSAO := some ⟨6, 400, 300⟩,
        pingPongBloom := some ⟨7, 400, 300⟩ },
    width := 800, height := 600, texelX := 1 / 800, texelY := 1 / 600,
    ssaoEnabled := true, bloomMode := .ADDITIVE, nextFbId := 8 }

/- === Theorems === -/

/-- The auto-detected render path is forward exactly for additive/multiply
blending, or alpha blending with a translucent albedo color or a
non-default albedo texture whose format carries alpha. -/
theorem auto_detect_eq_forward_iff (bm : R3D_BlendMode) (defaultTexId : ℕ)
    (material : Material) :
    r3d_render_auto_detect_mode bm defaultTexId material = .FORWARD ↔
      bm = .ADDITIVE ∨ bm = .MULTIPLY ∨
        (bm = .ALPHA ∧ (material.albedo.color.a < 255 ∨
          (¬(material.albedo.texture.id = 0 ∨
              material.albedo.texture.id = defaultTexId) ∧
            r3d_albedo_format_has_alpha material.albedo.texture.format = true))) := by
  cases bm <;> simp [r3d_render_auto_detect_mode]
  by_cases hc : material.albedo.color.a < 255 <;>
    by_cases h0 : material.albedo.texture.id = 0 <;>
      by_cases hd : material.albedo.texture.id = defaultTexId <;>
        simp_all [Nat.not_lt, and_assoc]

/-- The auto-detected render path is never the auto-detect marker itself. -/
theorem auto_detect_eq_deferred_of_ne_forward (bm : R3D_BlendMode)
    (defaultTexId : ℕ) (material : Material)
    (h : r3d_render_auto_detect_mode bm defaultTexId material ≠ .FORWARD) :
    r3d_render_auto_detect_mode bm defaultTexId material = .DEFERRED := by
  unfold r3d_render_auto_detect_mode at h ⊢
  split_ifs at h ⊢ <;> simp_all

/-- A submission whose resolved mode is forward goes to the forward bin. -/
theorem DrawMesh_forward_bin (render : RenderSettings) (defaultTexId : ℕ)
    (billboardApply : R3D_BillboardMode → Matrix4 → Matrix4)
    (cont : DrawContainers) (mesh : Mesh) (material : Material)
    (transform : Matrix4)
    (h : (if render.mode = .AUTO_DETECT then
            r3d_render_auto_detect_mode render.blendMode defaultTexId material
          else render.mode) = .FORWARD) :
    R3D_DrawMesh render defaultTexId billboardApply cont mesh material transform =
      { cont with aDrawForward := cont.aDrawForward ++
          [{ transform := billboardApply render.billboardMode transform,
             material := material, mesh := mesh,
             shadowCastMode := render.shadowCastMode,
             forward := some ⟨render.alphaScissorThreshold, render.blendMode⟩ }] } := by
  unfold R3D_DrawMesh
  rw [h]
  simp

/-- A submission whose resolved mode is not forward goes to the deferred
bin. -/
theorem DrawMesh_deferred_bin (render : RenderSettings) (defaultTexId : ℕ)
    (billboardApply : R3D_BillboardMode → Matrix4 → Matrix4)
    (cont : DrawContainers) (mesh : Mesh) (material : Material)
    (transform : Matrix4)
    (h : (if render.mode = .AUTO_DETECT then
            r3d_render_auto_detect_mode render.blendMode defaultTexId material
          else render.mode) ≠ .FORWARD) :
    R3D_DrawMesh render defaultTexId billboardApply cont mesh material transform =
      { cont with aDrawDeferred := cont.aDrawDeferred ++
          [{ transform := billboardApply render.billboardMode transform,
             material := material, mesh := mesh,
             shadowCastMode := render.shadowCastMode, forward := none }] } := by
  unfold R3D_DrawMesh
  rw [if_neg h]

/-- C1 fails as stated: under alpha blending and auto-detection, a material
at full albedo opacity whose albedo texture is the raylib default texture —
whose pixel format, R8G8B8A8, does carry an alpha channel — is appended to
the deferred bin, not the forward bin the claim requires. -/
theorem C1_counterexample :
    alphaRenderSettings.mode = .AUTO_DETECT
    ∧ alphaRenderSettings.blendMode = .ALPHA
    ∧ r3d_albedo_format_has_alpha materialDefaultTexture.albedo.texture.format = true
    ∧ ¬ materialDefaultTexture.albedo.color.a < 255
    ∧ (R3D_DrawMesh alphaRenderSettings 1 (fun _ m => m) ⟨[], []⟩ ⟨0⟩
        materialDefaultTexture Matrix4.zero).aDrawForward = []
    ∧ (R3D_DrawMesh alphaRenderSettings 1 (fun _ m => m) ⟨[], []⟩ ⟨0⟩
        materialDefaultTexture Matrix4.zero).aDrawDeferred.length = 1 := by
  decide

/-- C1 (amended): for every draw submission between Begin and End: if a
global render-mode override is set, that mode is used; otherwise, under
auto-detection, an opaque blend mode is appended to the deferred bin, an
additive or multiply blend mode to the forward bin regardless of texture
content, and an alpha blend mode to the forward bin exactly when the
material's albedo color alpha is below 255 or the albedo texture is not a
default texture (nonzero id, different from the default texture's id) and
its pixel format carries an alpha channel — and to the deferred bin
otherwise. -/
theorem C1_render_path_classification (render : RenderSettings)
    (defaultTexId : ℕ) (billboardApply : R3D_BillboardMode → Matrix4 → Matrix4)
    (cont : DrawContainers) (mesh : Mesh) (material : Material)
    (transform : Matrix4) :
    let cont2 := R3D_DrawMesh render defaultTexId billboardApply cont mesh
      material transform
    let tr := billboardApply render.billboardMode transform
    let toForward : Prop := render.mode = .FORWARD ∨
      (render.mode = .AUTO_DETECT ∧
        (render.blendMode = .ADDITIVE ∨ render.blendMode = .MULTIPLY ∨
          (render.blendMode = .ALPHA ∧ (material.albedo.color.a < 255 ∨
            (¬(material.albedo.texture.id = 0 ∨
                material.albedo.texture.id = defaultTexId) ∧
              r3d_albedo_format_has_alpha material.albedo.texture.format = true)))))
    (toForward →
      cont2.aDrawForward = cont.aDrawForward ++
        [{ transform := tr, material := material, mesh := mesh,
           shadowCastMode := render.shadowCastMode,
           forward := some ⟨render.alphaScissorThreshold, render.blendMode⟩ }]
      ∧ cont2.aDrawDeferred = cont.aDrawDeferred)
    ∧ (¬ toForward →
        cont2.aDrawDeferred = cont.aDrawDeferred ++
          [{ transform := tr, material := material, mesh := mesh,
             shadowCastMode := render.shadowCastMode, forward := none }]
        ∧ cont2.aDrawForward = cont.aDrawForward) := by
  intro cont2 tr toForward
  have hresolved : (if render.mode = .AUTO_DETECT then
      r3d_render_auto_detect_mode render.blendMode defaultTexId material
    else render.mode) = .FORWARD ↔ toForward := by
    rcases hm : render.mode <;>
      simp [hm, toForward, auto_detect_eq_forward_iff]
  constructor
  · intro h
    have h2 := DrawMesh_forward_bin render defaultTexId billboardApply cont
      mesh material transform (hresolved.mpr h)
    constructor
    · show (R3D_DrawMesh render defaultTexId billboardApply cont mesh material
        transform).aDrawForward = _
      rw [h2]
    · show (R3D_DrawMesh render defaultTexId billboardApply cont mesh material
        transform).aDrawDeferred = _
      rw [h2]
  · intro h
    have h2 := DrawMesh_deferred_bin render defaultTexId billboardApply cont
      mesh material transform (fun hc => h (hresolved.mp hc))
    constructor
    · show (R3D_DrawMesh render defaultTexId billboardApply cont mesh material
        transform).aDrawDeferred = _
      rw [h2]
    · show (R3D_DrawMesh render defaultTexId billboardApply cont mesh material
        transform).aDrawForward = _
      rw [h2]

/-- C2: at every frame-end the draw-call sort is the very first step, before
any pass runs, and it leaves the deferred bin sorted front-to-back and the
forward bin sorted back-to-front — each a permutation of what was submitted —
under the key "squared distance from the camera position to the translation
component of the draw call's transform". -/
theorem C2_frame_end_sorting (s : R3D_EndInput) (posView : Vector3)
    (cont : DrawContainers) :
    (R3D_End_trace s).head? = some .sortDrawcalls
    ∧ (r3d_prepare_sort_drawcalls posView cont).aDrawDeferred.Perm
        cont.aDrawDeferred
    ∧ List.Sorted (r3d_drawcall_front_to_back_le posView)
        (r3d_prepare_sort_drawcalls posView cont).aDrawDeferred
    ∧ (r3d_prepare_sort_drawcalls posView cont).aDrawForward.Perm
        cont.aDrawForward
    ∧ List.Sorted (r3d_drawcall_back_to_front_le posView)
        (r3d_prepare_sort_drawcalls posView cont).aDrawForward :=
  ⟨rfl, List.perm_insertionSort _ _, List.sorted_insertionSort _ _,
    List.perm_insertionSort _ _, List.sorted_insertionSort _ _⟩

/-- C9: re-sorting an already front-to-back-sorted deferred bin leaves it
unchanged (the sort is stable, hence idempotent on sorted input). -/
theorem C9_sort_front_to_back_idempotent (posView : Vector3)
    (calls : List DrawCall)
    (h : List.Sorted (r3d_drawcall_front_to_back_le posView) calls) :
    r3d_drawcall_sort_front_to_back posView calls = calls :=
  h.insertionSort_eq

/-- Concrete run of C9: a two-element bin at squared distances 1 and 4 from
the origin is sorted and re-sorting returns it verbatim. -/
theorem C9_witness :
    List.Sorted (r3d_drawcall_front_to_back_le ⟨0, 0, 0⟩)
      [drawCallAtX 1, drawCallAtX 2]
    ∧ r3d_drawcall_sort_front_to_back ⟨0, 0, 0⟩
        [drawCallAtX 1, drawCallAtX 2] = [drawCallAtX 1, drawCallAtX 2] :=
  ⟨by
    simp [List.sorted_cons, r3d_drawcall_front_to_back_le,
      r3d_drawcall_dist_sqr, r3d_drawcall_origin, Vector3DistanceSqr,
      drawCallAtX]
    norm_num,
  C9_sort_front_to_back_idempotent ⟨0, 0, 0⟩ [drawCallAtX 1, drawCallAtX 2]
    (by
      simp [List.sorted_cons, r3d_drawcall_front_to_back_le,
        r3d_drawcall_dist_sqr, r3d_drawcall_origin, Vector3DistanceSqr,
        drawCallAtX]
      norm_num)⟩

/-- Filtering commutes with a branch on a decidable condition. -/
theorem filter_ite_comm {α : Type} (p : α → Bool) (c : Prop) [Decidable c]
    (l1 l2 : List α) :
    (if c then l1 else l2).filter p =
      if c then l1.filter p else l2.filter p := by
  split <;> rfl

/-- C4 fails as stated: with default tonemap mode and exposure but a
non-default tonemap white point, frame-end skips the tonemap stage — the
white point does not participate in the skip condition. -/
theorem C4_counterexample :
    endInputWhite.tonemapWhite ≠ 1
    ∧ endInputWhite.tonemapMode = .LINEAR
    ∧ endInputWhite.tonemapExposure = 1
    ∧ R3DPass.postTonemap ∉ R3D_End_trace endInputWhite := by
  decide

/-- C4 (amended): the post-processing stages of a frame-end always execute in
the fixed order bloom, fog, tonemap, color adjustment, anti-aliasing, with
these skip conditions: bloom runs iff the bloom mode is not disabled; fog
runs iff the fog mode is not disabled; tonemap runs iff the tonemap mode is
not LINEAR or the exposure is not 1 (the white point does not participate);
color adjustment always runs; anti-aliasing runs iff the FXAA flag is set. -/
theorem C4_post_process_chain (s : R3D_EndInput) :
    (R3D_End_trace s).filter R3DPass.isPostStage =
      (if s.bloomMode ≠ .DISABLED then [R3DPass.postBloom] else [])
        ++ (if s.fogMode ≠ .DISABLED then [R3DPass.postFog] else [])
        ++ (if s.tonemapMode ≠ .LINEAR ∨ s.tonemapExposure ≠ 1 then
              [R3DPass.postTonemap] else [])
        ++ [R3DPass.postAdjustment]
        ++ (if s.flagFxaa then [R3DPass.postFxaa] else [])
    ∧ ((R3D_End_trace s).filter R3DPass.isPostStage).Sublist
        [R3DPass.postBloom, R3DPass.postFog, R3DPass.postTonemap,
          R3DPass.postAdjustment, R3DPass.postFxaa]
    ∧ (R3DPass.postBloom ∈ R3D_End_trace s ↔ s.bloomMode ≠ .DISABLED)
    ∧ (R3DPass.postFog ∈ R3D_End_trace s ↔ s.fogMode ≠ .DISABLED)
    ∧ (R3DPass.postTonemap ∈ R3D_End_trace s ↔
        (s.tonemapMode ≠ .LINEAR ∨ s.tonemapExposure ≠ 1))
    ∧ R3DPass.postAdjustment ∈ R3D_End_trace s
    ∧ (R3DPass.postFxaa ∈ R3D_End_trace s ↔ s.flagFxaa = true) := by
  have hfilter : (R3D_End_trace s).filter R3DPass.isPostStage =
      (if s.bloomMode ≠ .DISABLED then [R3DPass.postBloom] else [])
        ++ (if s.fogMode ≠ .DISABLED then [R3DPass.postFog] else [])
        ++ (if s.tonemapMode ≠ .LINEAR ∨ s.tonemapExposure ≠ 1 then
              [R3DPass.postTonemap] else [])
        ++ [R3DPass.postAdjustment]
        ++ (if s.flagFxaa then [R3DPass.postFxaa] else []) := by
    unfold R3D_End_trace
    simp [List.filter_append, filter_ite_comm, R3DPass.isPostStage]
  have hmem : ∀ x : R3DPass, R3DPass.isPostStage x = true →
      (x ∈ R3D_End_trace s ↔
        x ∈ (R3D_End_trace s).filter R3DPass.isPostStage) := by
    intro x hx
    simp [List.mem_filter, hx]
  refine ⟨hfilter, ?_, ?_, ?_, ?_, ?_, ?_⟩
  · rw [hfilter]
    split_ifs <;> decide
  · rw [hmem R3DPass.postBloom rfl, hfilter]
    split_ifs <;> simp_all
  · rw [hmem R3DPass.postFog rfl, hfilter]
    split_ifs <;> simp_all
  · rw [hmem R3DPass.postTonemap rfl, hfilter]
    split_ifs <;> simp_all
  · rw [hmem R3DPass.postAdjustment rfl, hfilter]
    split_ifs <;> simp_all
  · rw [hmem R3DPass.postFxaa rfl, hfilter]
    split_ifs <;> simp_all

/-- Any member of the light batch came from a valid, enabled light whose
screen rectangle overlaps the viewport, and carries that rectangle clamped. -/
theorem batch_mem_elim {projCone projSphere : r3d_light_t → Rectangle}
    {screenW screenH : ℤ} {reg : Registry} {e : r3d_light_batched_t}
    (he : e ∈ r3d_prepare_process_lights_and_batch projCone projSphere screenW
      screenH reg) :
    r3d_registry_get reg e.id = some e.data ∧ e.data.enabled = true ∧
      CheckCollisionRecs
        (r3d_light_screen_rect projCone projSphere screenW screenH e.data)
        ⟨0, 0, (screenW : ℚ), (screenH : ℚ)⟩ ∧
      e.dstRect = r3d_clamp_light_rect screenW screenH
        (r3d_light_screen_rect projCone projSphere screenW screenH e.data) := by
  unfold r3d_prepare_process_lights_and_batch at he
  obtain ⟨idx, hidx, hf⟩ := List.mem_filterMap.mp he
  dsimp only at hf
  split at hf
  · exact absurd hf (by simp)
  · rename_i light hget
    split at hf
    · exact absurd hf (by simp)
    · rename_i hen
      split at hf
      · rename_i hcol
        have he2 := Option.some.inj hf
        subst he2
        exact ⟨hget, Bool.not_eq_false light.enabled |>.mp hen, hcol, rfl⟩
      · exact absurd hf (by simp)

/-- A valid, enabled light whose screen rectangle overlaps the viewport is a
member of the light batch, under its handle, with the clamped rectangle. -/
theorem batch_mem_intro {projCone projSphere : r3d_light_t → Rectangle}
    {screenW screenH : ℤ} {reg : Registry} {id : ℕ} {light : r3d_light_t}
    (hget : r3d_registry_get reg id = some light)
    (hen : light.enabled = true)
    (hcol : CheckCollisionRecs
      (r3d_light_screen_rect projCone projSphere screenW screenH light)
      ⟨0, 0, (screenW : ℚ), (screenH : ℚ)⟩) :
    ({ id := id, data := light,
       dstRect := r3d_clamp_light_rect screenW screenH
         (r3d_light_screen_rect projCone projSphere screenW screenH light) } :
      r3d_light_batched_t) ∈
      r3d_prepare_process_lights_and_batch projCone projSphere screenW screenH
        reg := by
  have hid0 : id ≠ 0 := by
    intro h0
    rw [h0] at hget
    simp [r3d_registry_get] at hget
  have hslot : reg.slots.get? (id - 1) = some (some light) := by
    unfold r3d_registry_get at hget
    rw [if_neg hid0] at hget
    rcases hs : reg.slots.get? (id - 1) with _ | ol
    · rw [hs] at hget
      simp at hget
    · rw [hs] at hget
      rcases ol with _ | l
      · simp at hget
      · simp only [Option.some.injEq] at hget
        rw [hget]
  have hlt : id - 1 < reg.slots.length := by
    by_contra hge
    rw [List.get?_len_le (Nat.le_of_not_lt hge)] at hslot
    exact absurd hslot (by simp)
  have hidsucc : id - 1 + 1 = id :=
    Nat.succ_pred_eq_of_pos (Nat.pos_of_ne_zero hid0)
  unfold r3d_prepare_process_lights_and_batch
  rw [List.mem_filterMap]
  refine ⟨id - 1, List.mem_range.mpr hlt, ?_⟩
  dsimp only
  rw [hidsucc, hget]
  simp [hen, hcol]

/-- The clamp of a light rectangle whose upper-left corner lies left of and
above the screen's far edges lands inside the screen. -/
theorem clamp_light_rect_bounds (screenW screenH : ℤ) (rect : Rectangle)
    (hw : 0 < screenW) (hh : 0 < screenH)
    (hx : rect.x < (screenW : ℚ)) (hy : rect.y < (screenH : ℚ)) :
    0 ≤ (r3d_clamp_light_rect screenW screenH rect).x ∧
      0 ≤ (r3d_clamp_light_rect screenW screenH rect).y ∧
      0 ≤ (r3d_clamp_light_rect screenW screenH rect).width ∧
      0 ≤ (r3d_clamp_light_rect screenW screenH rect).height ∧
      (r3d_clamp_light_rect screenW screenH rect).x +
        (r3d_clamp_light_rect screenW screenH rect).width ≤ (screenW : ℚ) ∧
      (r3d_clamp_light_rect screenW screenH rect).y +
        (r3d_clamp_light_rect screenW screenH rect).height ≤ (screenH : ℚ) := by
  have hw2 : (0 : ℚ) < (screenW : ℚ) := by exact_mod_cast hw
  have hh2 : (0 : ℚ) < (screenH : ℚ) := by exact_mod_cast hh
  unfold r3d_clamp_light_rect Clamp
  rcases lt_or_le rect.x 0 with h1 | h1
  · simp only [if_pos h1]
    try dsimp only
    rcases lt_or_le rect.y 0 with h2 | h2
    · simp only [if_pos h2]
      try dsimp only
      split_ifs <;> refine ⟨?_, ?_, ?_, ?_, ?_, ?_⟩ <;> linarith
    · simp only [if_neg (not_lt.mpr h2)]
      try dsimp only
      split_ifs <;> refine ⟨?_, ?_, ?_, ?_, ?_, ?_⟩ <;> linarith
  · simp only [if_neg (not_lt.mpr h1)]
    try dsimp only
    rcases lt_or_le rect.y 0 with h2 | h2
    · simp only [if_pos h2]
      try dsimp only
      split_ifs <;> refine ⟨?_, ?_, ?_, ?_, ?_, ?_⟩ <;> linarith
    · simp only [if_neg (not_lt.mpr h2)]
      try dsimp only
      split_ifs <;> refine ⟨?_, ?_, ?_, ?_, ?_, ?_⟩ <;> linarith

/-- C3: at frame-end a registered light is in the light batch exactly when it
is valid and enabled and its computed screen-space rectangle overlaps the
viewport; an enabled directional light's rectangle is the full viewport, so
it is always included; every included rectangle is clamped to the viewport
bounds. -/
theorem C3_light_batch_visibility
    (projCone projSphere : r3d_light_t → Rectangle) (screenW screenH : ℤ)
    (reg : Registry) (id : ℕ) (hw : 0 < screenW) (hh : 0 < screenH) :
    let batch := r3d_prepare_process_lights_and_batch projCone projSphere
      screenW screenH reg
    let viewport : Rectangle := ⟨0, 0, (screenW : ℚ), (screenH : ℚ)⟩
    ((∃ e ∈ batch, e.id = id) ↔
      ∃ light, r3d_registry_get reg id = some light ∧ light.enabled = true ∧
        CheckCollisionRecs
          (r3d_light_screen_rect projCone projSphere screenW screenH light)
          viewport)
    ∧ (∀ light, r3d_registry_get reg id = some light → light.enabled = true →
        light.type = .DIR → ∃ e ∈ batch, e.id = id)
    ∧ (∀ e ∈ batch, 0 ≤ e.dstRect.x ∧ 0 ≤ e.dstRect.y ∧ 0 ≤ e.dstRect.width ∧
        0 ≤ e.dstRect.height ∧ e.dstRect.x + e.dstRect.width ≤ (screenW : ℚ) ∧
        e.dstRect.y + e.dstRect.height ≤ (screenH : ℚ)) := by
  intro batch viewport
  have hincl : (∃ e ∈ batch, e.id = id) ↔
      ∃ light, r3d_registry_get reg id = some light ∧ light.enabled = true ∧
        CheckCollisionRecs
          (r3d_light_screen_rect projCone projSphere screenW screenH light)
          viewport := by
    constructor
    · rintro ⟨e, he, rfl⟩
      obtain ⟨hget, hen, hcol, _⟩ := batch_mem_elim he
      exact ⟨e.data, hget, hen, hcol⟩
    · rintro ⟨light, hget, hen, hcol⟩
      exact ⟨_, batch_mem_intro hget hen hcol, rfl⟩
  refine ⟨hincl, ?_, ?_⟩
  · intro light hget hen htype
    refine hincl.mpr ⟨light, hget, hen, ?_⟩
    have hrect : r3d_light_screen_rect projCone projSphere screenW screenH
        light = viewport := by
      unfold r3d_light_screen_rect
      rw [htype]
    rw [hrect]
    have hw2 : (0 : ℚ) < (screenW : ℚ) := by exact_mod_cast hw
    have hh2 : (0 : ℚ) < (screenH : ℚ) := by exact_mod_cast hh
    exact ⟨by simpa using hw2, by simpa using hw2,
      by simpa using hh2, by simpa using hh2⟩
  · intro e he
    obtain ⟨_, _, hcol, hrect⟩ := batch_mem_elim he
    obtain ⟨hcx, _, hcy, _⟩ := hcol
    rw [hrect]
    exact clamp_light_rect_bounds screenW screenH _ hw hh
      (by simpa using hcx) (by simpa using hcy)

/-- Concrete run of C3: a 100×100 viewport is a positive screen, and the
batch of the empty registry satisfies the visibility characterization for
handle 1. -/
theorem C3_witness :
    (0 : ℤ) < 100 ∧
    (let batch := r3d_prepare_process_lights_and_batch (fun _ => ⟨0, 0, 0, 0⟩)
        (fun _ => ⟨0, 0, 0, 0⟩) 100 100 Registry.empty
     let viewport : Rectangle := ⟨0, 0, (100 : ℚ), (100 : ℚ)⟩
     ((∃ e ∈ batch, e.id = 1) ↔
       ∃ light, r3d_registry_get Registry.empty 1 = some light ∧
         light.enabled = true ∧
         CheckCollisionRecs
           (r3d_light_screen_rect (fun _ => ⟨0, 0, 0, 0⟩)
             (fun _ => ⟨0, 0, 0, 0⟩) 100 100 light) viewport)
     ∧ (∀ light, r3d_registry_get Registry.empty 1 = some light →
         light.enabled = true → light.type = .DIR → ∃ e ∈ batch, e.id = 1)
     ∧ (∀ e ∈ batch, 0 ≤ e.dstRect.x ∧ 0 ≤ e.dstRect.y ∧
         0 ≤ e.dstRect.width ∧ 0 ≤ e.dstRect.height ∧
         e.dstRect.x + e.dstRect.width ≤ (100 : ℚ) ∧
         e.dstRect.y + e.dstRect.height ≤ (100 : ℚ))) :=
  ⟨by decide,
    C3_light_batch_visibility (fun _ => ⟨0, 0, 0, 0⟩) (fun _ => ⟨0, 0, 0, 0⟩)
      100 100 Registry.empty 1 (by decide) (by decide)⟩

/-- Every accessor that goes through the shared handle-check macro, on an
invalid handle, returns its default, leaves the registry untouched and logs
one error. -/
theorem get_and_check_invalid {β : Type} (reg : Registry) (id : ℕ)
    (h : r3d_registry_get reg id = none) (deflt : β)
    (body : r3d_light_t → β × Option r3d_light_t) :
    r3d_get_and_check_light reg id deflt body =
      (deflt, reg, [.LOG_ERROR]) := by
  unfold r3d_get_and_check_light
  rw [h]

/-- C5 fails as stated: on an invalid handle the accessors do fail safely,
but the message is logged at level LOG_ERROR, not as a warning. -/
theorem C5_counterexample :
    R3D_GetLightEnergy Registry.empty 1 =
      (0, Registry.empty, [TraceLogLevel.LOG_ERROR])
    ∧ TraceLogLevel.LOG_ERROR ≠ TraceLogLevel.LOG_WARNING :=
  ⟨rfl, by decide⟩

/-- C5 (amended): for every destroyed or never-created light handle, every
light accessor (getter, setter, toggle, shadow operation) validates the
handle and, on failure, logs an error (LOG_ERROR, not a warning) and returns
a neutral/zero value or performs no state change; no accessor modifies any
light when given such a handle. -/
theorem C5_invalid_handle_accessors (reg : Registry) (id : ℕ)
    (h : r3d_registry_get reg id = none) :
    R3D_IsLightExist reg id = (false, reg, [.LOG_ERROR])
    ∧ R3D_GetLightType reg id = (.DIR, reg, [.LOG_ERROR])
    ∧ R3D_IsLightActive reg id = (false, reg, [.LOG_ERROR])
    ∧ R3D_ToggleLight reg id = ((), reg, [.LOG_ERROR])
    ∧ (∀ active, R3D_SetLightActive reg id active = ((), reg, [.LOG_ERROR]))
    ∧ R3D_GetLightColor reg id = (⟨0, 0, 0, 0⟩, reg, [.LOG_ERROR])
    ∧ R3D_GetLightColorV reg id = (⟨0, 0, 0⟩, reg, [.LOG_ERROR])
    ∧ (∀ c, R3D_SetLightColor reg id c = ((), reg, [.LOG_ERROR]))
    ∧ (∀ c, R3D_SetLightColorV reg id c = ((), reg, [.LOG_ERROR]))
    ∧ R3D_GetLightPosition reg id = (⟨0, 0, 0⟩, reg, [.LOG_ERROR])
    ∧ (∀ p, R3D_SetLightPosition reg id p = ((), reg, [.LOG_ERROR]))
    ∧ R3D_GetLightDirection reg id = (⟨0, 0, 0⟩, reg, [.LOG_ERROR])
    ∧ (∀ d, R3D_SetLightDirection reg id d = ((), reg, [.LOG_ERROR]))
    ∧ (∀ t, R3D_SetLightTarget reg id t = ((), reg, [.LOG_ERROR]))
    ∧ R3D_GetLightEnergy reg id = (0, reg, [.LOG_ERROR])
    ∧ (∀ x, R3D_SetLightEnergy reg id x = ((), reg, [.LOG_ERROR]))
    ∧ R3D_GetLightRange reg id = (0, reg, [.LOG_ERROR])
    ∧ (∀ x, R3D_SetLightRange reg id x = ((), reg, [.LOG_ERROR]))
    ∧ R3D_GetLightAttenuation reg id = (0, reg, [.LOG_ERROR])
    ∧ (∀ x, R3D_SetLightAttenuation reg id x = ((), reg, [.LOG_ERROR]))
    ∧ R3D_GetLightInnerCutOff reg id = (0, reg, [.LOG_ERROR])
    ∧ (∀ x, R3D_SetLightInnerCutOff reg id x = ((), reg, [.LOG_ERROR]))
    ∧ R3D_GetLightOuterCutOff reg id = (0, reg, [.LOG_ERROR])
    ∧ (∀ x, R3D_SetLightOuterCutOff reg id x = ((), reg, [.LOG_ERROR]))
    ∧ (∀ cm res, R3D_EnableShadow cm reg id res = ((), reg, [.LOG_ERROR]))
    ∧ (∀ b, R3D_DisableShadow reg id b = ((), reg, [.LOG_ERROR]))
    ∧ R3D_IsShadowEnabled reg id = (false, reg, [.LOG_ERROR])
    ∧ R3D_HasShadowMap reg id = (false, reg, [.LOG_ERROR])
    ∧ R3D_GetShadowUpdateMode reg id = (.MANUAL, reg, [.LOG_ERROR])
    ∧ (∀ m, R3D_SetShadowUpdateMode reg id m = ((), reg, [.LOG_ERROR]))
    ∧ R3D_GetShadowUpdateFrequency reg id = (0, reg, [.LOG_ERROR])
    ∧ (∀ ms, R3D_SetShadowUpdateFrequency reg id ms = ((), reg, [.LOG_ERROR]))
    ∧ R3D_UpdateShadowMap reg id = ((), reg, [.LOG_ERROR])
    ∧ R3D_GetShadowBias reg id = (0, reg, [.LOG_ERROR])
    ∧ (∀ v, R3D_SetShadowBias reg id v = ((), reg, [.LOG_ERROR]))
    ∧ R3D_DestroyLight reg id = ((), reg, [.LOG_ERROR]) := by
  refine ⟨?_, ?_, ?_, ?_, ?_, ?_, ?_, ?_, ?_, ?_, ?_, ?_, ?_, ?_, ?_, ?_, ?_,
    ?_, ?_, ?_, ?_, ?_, ?_, ?_, ?_, ?_, ?_, ?_, ?_, ?_, ?_, ?_, ?_, ?_, ?_,
    ?_⟩ <;>
    first
      | exact get_and_check_invalid reg id h _ _
      | exact fun _ => get_and_check_invalid reg id h _ _
      | exact fun _ _ => get_and_check_invalid reg id h _ _
      | (unfold R3D_DestroyLight; rw [h])

/-- Concrete run of C5: handle 7 was never created in the empty registry and
the exist-check fails neutrally with one error logged. -/
theorem C5_witness :
    r3d_registry_get Registry.empty 7 = none
    ∧ R3D_IsLightExist Registry.empty 7 =
        (false, Registry.empty, [TraceLogLevel.LOG_ERROR]) :=
  ⟨rfl, (C5_invalid_handle_accessors Registry.empty 7 rfl).1⟩

/-- C6 fails as stated: a call with positive width and height equal to the
current resolution destroys and recreates nothing — UpdateResolution returns
with the state, including every loaded framebuffer, unchanged. -/
theorem C6_counterexample :
    (0 : ℤ) < 800 ∧ (0 : ℤ) < 600
    ∧ (R3D_UpdateResolution 800 600 resState800).1 = resState800
    ∧ resState800.framebuffer.gBuffer = some ⟨1, 800, 600⟩ :=
  ⟨by decide, by decide, rfl, rfl⟩

/-- C6 (amended): for every call to UpdateResolution(w, h) with positive
width and height that differ from the current resolution, all
resolution-dependent framebuffers are destroyed and recreated before the
call returns (hence before any subsequent pass runs): afterwards every
loaded resource reports the new dimensions (half-resolution for the
SSAO/bloom buffers), no resource id from before the call remains, and the
stored resolution is the new one. -/
theorem C6_update_resolution_recreates (w h2 : ℤ) (s : ResolutionState)
    (hw : 0 < w) (hh : 0 < h2)
    (hchange : ¬(w = s.width ∧ h2 = s.height))
    (hwf : ∀ fb ∈ s.framebuffer.loaded, fb.id < s.nextFbId) :
    (∀ fb ∈ ((R3D_UpdateResolution w h2 s).1).framebuffer.loadedFullRes,
        fb.width = w ∧ fb.height = h2)
    ∧ (∀ fb ∈ ((R3D_UpdateResolution w h2 s).1).framebuffer.loadedHalfRes,
        fb.width = w / 2 ∧ fb.height = h2 / 2)
    ∧ (∀ fbOld ∈ s.framebuffer.loaded,
        ∀ fbNew ∈ ((R3D_UpdateResolution w h2 s).1).framebuffer.loaded,
          fbOld.id ≠ fbNew.id)
    ∧ ((R3D_UpdateResolution w h2 s).1).width = w
    ∧ ((R3D_UpdateResolution w h2 s).1).height = h2 := by
  have hno : ¬(w ≤ 0 ∨ h2 ≤ 0) := by
    push_neg
    exact ⟨hw, hh⟩
  unfold R3D_UpdateResolution
  rw [if_neg hno, if_neg hchange]
  unfold r3d_framebuffers_load r3d_framebuffers_unload
  dsimp only
  split_ifs <;>
    refine ⟨?_, ?_, ?_, rfl, rfl⟩ <;>
      first
        | (simp [FramebufferSet.loadedFullRes, FramebufferSet.loadedHalfRes,
            List.reduceOption, List.forall_mem_cons]
           done)
        | (intro fbOld hOld fbNew hNew
           have h5 := hwf fbOld hOld
           simp [FramebufferSet.loaded, List.reduceOption] at hNew
           rcases hNew with rfl | rfl | rfl | rfl | rfl | rfl | rfl <;>
             simp <;> omega)

/-- Concrete run of C6: growing the 800×600 state to 1024×768 recreates
every framebuffer at the new dimensions with fresh ids. -/
theorem C6_witness :
    ((0 : ℤ) < 1024 ∧ (0 : ℤ) < 768
      ∧ ¬((1024 : ℤ) = resState800.width ∧ (768 : ℤ) = resState800.height)
      ∧ ∀ fb ∈ resState800.framebuffer.loaded, fb.id < resState800.nextFbId)
    ∧ ((∀ fb ∈ ((R3D_UpdateResolution 1024 768 resState800).1).framebuffer.loadedFullRes,
          fb.width = 1024 ∧ fb.height = 768)
        ∧ (∀ fb ∈ ((R3D_UpdateResolution 1024 768 resState800).1).framebuffer.loadedHalfRes,
            fb.width = 1024 / 2 ∧ fb.height = 768 / 2)
        ∧ (∀ fbOld ∈ resState800.framebuffer.loaded,
            ∀ fbNew ∈ ((R3D_UpdateResolution 1024 768 resState800).1).framebuffer.loaded,
              fbOld.id ≠ fbNew.id)
        ∧ ((R3D_UpdateResolution 1024 768 resState800).1).width = 1024
        ∧ ((R3D_UpdateResolution 1024 768 resState800).1).height = 768) :=
  ⟨⟨by decide, by decide, by decide, by decide⟩,
    C6_update_resolution_recreates 1024 768 resState800 (by decide) (by decide)
      (by decide) (by decide)⟩

/-- C7: the forward pass sends at most R3D_SHADER_NUM_LIGHTS = 8 lights —
the first eight of the batch in registry iteration order, any excess
silently dropped (the result only depends on the first eight); slots past
the batch are disabled; and for one non-instanced draw call the i-th batched
spot or omni light is rejected (its slot left untouched, nothing uploaded)
exactly when the draw call's world-space origin lies outside the sphere
centered at the light's position with radius its range. -/
theorem C7_forward_light_capacity_and_rejection
    (prev : Fin R3D_SHADER_NUM_LIGHTS → ForwardLightSlot)
    (batch : List r3d_light_batched_t) (callOrigin : Vector3) :
    R3D_SHADER_NUM_LIGHTS = 8
    ∧ r3d_pass_scene_forward_filter_and_send_lights prev batch callOrigin =
        r3d_pass_scene_forward_filter_and_send_lights prev
          (batch.take R3D_SHADER_NUM_LIGHTS) callOrigin
    ∧ (∀ i : Fin R3D_SHADER_NUM_LIGHTS,
        (batch.get? i.val = none →
          r3d_pass_scene_forward_filter_and_send_lights prev batch callOrigin
            i = { prev i with enabled := false })
        ∧ (∀ b, batch.get? i.val = some b →
            r3d_pass_scene_forward_filter_and_send_lights prev batch callOrigin
              i =
              if b.data.type ≠ .DIR ∧
                  b.data.range * b.data.range ≤
                    Vector3DistanceSqr callOrigin b.data.position then
                prev i
              else { enabled := true, light := some b.data })) := by
  refine ⟨rfl, ?_, ?_⟩
  · funext i
    unfold r3d_pass_scene_forward_filter_and_send_lights
    rw [List.get?_take i.isLt]
  · intro i
    constructor
    · intro hnone
      unfold r3d_pass_scene_forward_filter_and_send_lights
      rw [hnone]
    · intro b hb
      unfold r3d_pass_scene_forward_filter_and_send_lights
      rw [hb]
      simp only [r3d_collision_check_point_in_sphere_sqr, not_lt]

/-- After a valid Set, the stored light is read back under the same handle. -/
theorem registry_get_set_self (reg : Registry) (id : ℕ)
    (light0 light : r3d_light_t)
    (h : r3d_registry_get reg id = some light0) :
    r3d_registry_get (r3d_registry_set reg id light) id = some light := by
  have hid0 : id ≠ 0 := by
    intro h0
    rw [h0] at h
    simp [r3d_registry_get] at h
  have hslot : reg.slots.get? (id - 1) = some (some light0) := by
    unfold r3d_registry_get at h
    rw [if_neg hid0] at h
    rcases hs : reg.slots.get? (id - 1) with _ | ol
    · rw [hs] at h
      simp at h
    · rw [hs] at h
      rcases ol with _ | l
      · simp at h
      · simp only [Option.some.injEq] at h
        rw [h]
  have hlt : id - 1 < reg.slots.length := by
    by_contra hge
    rw [List.get?_len_le (Nat.le_of_not_lt hge)] at hslot
    exact absurd hslot (by simp)
  unfold r3d_registry_get r3d_registry_set
  rw [if_neg hid0, List.get?_set_eq_of_lt _ (by simpa using hlt)]

/-- C8: SetLightDirection stores (and GetLightDirection then returns) the
normalization of its argument — a unit-length positive rescaling of the
input, never the raw vector itself when that is not already normalized. -/
theorem C8_set_direction_normalizes (reg : Registry) (id : ℕ)
    (light0 : r3d_light_t) (d : Vector3R)
    (hvalid : r3d_registry_get reg id = some light0)
    (hd : Vector3RLengthSqr d ≠ 0) :
    (R3D_GetLightDirection (R3D_SetLightDirection reg id d).2.1 id).1 =
      Vector3Normalize d
    ∧ Vector3RLengthSqr (Vector3Normalize d) = 1
    ∧ Vector3Normalize d =
        Vector3RScale d (1 / Real.sqrt (Vector3RLengthSqr d)) := by
  have hS0 : (0 : ℝ) ≤ d.x * d.x + d.y * d.y + d.z * d.z :=
    add_nonneg (add_nonneg (mul_self_nonneg _) (mul_self_nonneg _))
      (mul_self_nonneg _)
  have hSpos : (0 : ℝ) < d.x * d.x + d.y * d.y + d.z * d.z := by
    rcases lt_or_eq_of_le hS0 with hlt | heq
    · exact hlt
    · exact absurd heq.symm (by simpa [Vector3RLengthSqr] using hd)
  have hL : Real.sqrt (d.x * d.x + d.y * d.y + d.z * d.z) ≠ 0 :=
    Real.sqrt_ne_zero'.mpr hSpos
  have hLL : Real.sqrt (d.x * d.x + d.y * d.y + d.z * d.z) *
      Real.sqrt (d.x * d.x + d.y * d.y + d.z * d.z) =
      d.x * d.x + d.y * d.y + d.z * d.z := Real.mul_self_sqrt hS0
  have hnorm : Vector3Normalize d =
      ⟨d.x / Real.sqrt (d.x * d.x + d.y * d.y + d.z * d.z),
       d.y / Real.sqrt (d.x * d.x + d.y * d.y + d.z * d.z),
       d.z / Real.sqrt (d.x * d.x + d.y * d.y + d.z * d.z)⟩ := by
    unfold Vector3Normalize
    rw [if_neg hL]
  refine ⟨?_, ?_, ?_⟩
  · have hset : (R3D_SetLightDirection reg id d).2.1 =
        r3d_registry_set reg id { light0 with direction := Vector3Normalize d } := by
      unfold R3D_SetLightDirection r3d_get_and_check_light
      rw [hvalid]
    rw [hset]
    unfold R3D_GetLightDirection r3d_get_and_check_light
    rw [registry_get_set_self reg id light0 _ hvalid]
  · rw [hnorm]
    unfold Vector3RLengthSqr
    field_simp
  · rw [hnorm]
    unfold Vector3RScale Vector3RLengthSqr
    simp only [Vector3R.mk.injEq]
    refine ⟨?_, ?_, ?_⟩ <;> rw [mul_one_div]

/-- Concrete run of C8: setting direction (3, 4, 0) on the single light of a
one-slot registry stores its normalization (3/5, 4/5, 0). -/
theorem C8_witness :
    r3d_registry_get ⟨[some sampleLight]⟩ 1 = some sampleLight
    ∧ Vector3RLengthSqr ⟨3, 4, 0⟩ ≠ 0
    ∧ ((R3D_GetLightDirection
          (R3D_SetLightDirection ⟨[some sampleLight]⟩ 1 ⟨3, 4, 0⟩).2.1 1).1 =
        Vector3Normalize ⟨3, 4, 0⟩
      ∧ Vector3RLengthSqr (Vector3Normalize ⟨3, 4, 0⟩) = 1
      ∧ Vector3Normalize ⟨3, 4, 0⟩ =
          Vector3RScale ⟨3, 4, 0⟩
            (1 / Real.sqrt (Vector3RLengthSqr ⟨3, 4, 0⟩))) :=
  ⟨rfl, by norm_num [Vector3RLengthSqr],
    C8_set_direction_normalizes ⟨[some sampleLight]⟩ 1 sampleLight ⟨3, 4, 0⟩
      rfl (by norm_num [Vector3RLengthSqr])⟩

/-- A free-slot index returned by the scan is in range. -/
theorem firstFreeSlot_lt :
    ∀ (l : List (Option r3d_light_t)) (i : ℕ), firstFreeSlot l = some i →
      i < l.length := by
  intro l
  induction l with
  | nil => intro i h; simp [firstFreeSlot] at h
  | cons a rest ih =>
    intro i h
    cases a with
    | none =>
      simp [firstFreeSlot] at h
      simp only [List.length_cons]
      omega
    | some light =>
      simp only [firstFreeSlot, Option.map_eq_some'] at h
      obtain ⟨j, hj, rfl⟩ := h
      have := ih j hj
      simp
      omega

/-- The handle returned by the registry add reads back the stored light. -/
theorem registry_add_get (reg : Registry) (light : r3d_light_t) :
    r3d_registry_get (r3d_registry_add reg light).1
      (r3d_registry_add reg light).2 = some light := by
  unfold r3d_registry_add
  rcases hff : firstFreeSlot reg.slots with _ | idx
  · dsimp only
    unfold r3d_registry_get
    rw [if_neg (Nat.succ_ne_zero reg.slots.length)]
    simp only [Nat.add_sub_cancel]
    rw [List.get?_concat_length]
  · have hlt := firstFreeSlot_lt reg.slots idx hff
    dsimp only
    unfold r3d_registry_get
    rw [if_neg (Nat.succ_ne_zero idx)]
    simp only [Nat.add_sub_cancel]
    rw [List.get?_set_eq_of_lt _ hlt]

/-- The record CreateLight stores is disabled (r3d_light_init clears the
flag and the later field writes leave it alone). -/
theorem create_light_record_disabled (slotMem : r3d_light_t)
    (type : R3D_LightType) :
    (r3d_create_light_record slotMem type).enabled = false := by
  unfold r3d_create_light_record r3d_light_init
  rfl

/-- CreateLight resolves to: store the initialized record over the freshly
added slot, and return that slot's handle. -/
theorem CreateLight_eq (uninit : r3d_light_t) (reg : Registry)
    (type : R3D_LightType) :
    R3D_CreateLight uninit reg type =
      (r3d_registry_set (r3d_registry_add reg uninit).1
        (r3d_registry_add reg uninit).2
        (r3d_create_light_record uninit type),
       (r3d_registry_add reg uninit).2) := by
  unfold R3D_CreateLight
  dsimp only
  rw [registry_add_get reg uninit]

/-- C10: a light returned by CreateLight is initially inactive —
IsLightActive reports false right after creation, and the light is excluded
from the frame's light batch (it contributes nothing to any frame) until it
is explicitly activated. -/
theorem C10_created_light_inactive (uninit : r3d_light_t) (reg : Registry)
    (type : R3D_LightType) (projCone projSphere : r3d_light_t → Rectangle)
    (screenW screenH : ℤ) :
    (R3D_IsLightActive (R3D_CreateLight uninit reg type).1
        (R3D_CreateLight uninit reg type).2).1 = false
    ∧ ∀ e ∈ r3d_prepare_process_lights_and_batch projCone projSphere screenW
        screenH (R3D_CreateLight uninit reg type).1,
        e.id ≠ (R3D_CreateLight uninit reg type).2 := by
  rw [CreateLight_eq]
  dsimp only
  have hget : r3d_registry_get
      (r3d_registry_set (r3d_registry_add reg uninit).1
        (r3d_registry_add reg uninit).2
        (r3d_create_light_record uninit type))
      (r3d_registry_add reg uninit).2 =
      some (r3d_create_light_record uninit type) :=
    registry_get_set_self _ _ uninit _ (registry_add_get reg uninit)
  constructor
  · unfold R3D_IsLightActive r3d_get_and_check_light
    rw [hget]
    simp [create_light_record_disabled]
  · intro e he heq
    obtain ⟨hget2, hen, _, _⟩ := batch_mem_elim he
    rw [heq, hget] at hget2
    have : e.data = r3d_create_light_record uninit type :=
      (Option.some.inj hget2).symm
    rw [this, create_light_record_disabled] at hen
    exact absurd hen (by simp)

end R3D
